import Mathlib

/-!
Verification of the `umbral-pre-python` adapter layer
(`src/umbral-pre-python/src/lib.rs`): a shallow embedding of the
marshaling / identity / error-translation code that wraps the
`umbral_pre` PRE backend for a Python host.

The backend crate itself is not under `src/`; where a property depends on
backend behaviour, the backend is either kept abstract (a function
parameter together with the property the spec states for it) or modelled
from the spec in a definition whose doc comment says so.
-/

set_option autoImplicit false

namespace Umbral

/-! ### Host-visible errors

The adapter raises Python exceptions of three kinds: `PyValueError`,
`PyTypeError` and the custom `GenericError` rooted at `PyException`
(`create_exception!(umbral, GenericError, PyException)` in lib.rs).
The spec calls the last one "GenericCryptographicError-kind". -/

inductive PyErrKind where
  | ValueError
  | TypeError
  | GenericError
  deriving DecidableEq, Repr

structure PyErr where
  kind : PyErrKind
  msg : String
  deriving DecidableEq, Repr

/-! ### Backend error enums

These are the error types imported from `umbral_pre` at the top of
lib.rs; their constructors are the ones the adapter matches on. -/

inductive DeserializationError where
  | ConstructionFailure
  | TooManyBytes
  | NotEnoughBytes
  deriving DecidableEq, Repr

inductive DecryptionError where
  | CiphertextTooShort
  | AuthenticationFailed
  deriving DecidableEq, Repr

inductive OpenReencryptedError where
  | NoCapsuleFrags
  | MismatchedCapsuleFrags
  | RepeatingCapsuleFrags
  | ZeroHash
  | ValidationFailed
  deriving DecidableEq, Repr

inductive ReencryptionError where
  | OnOpen (e : OpenReencryptedError)
  | OnDecryption (e : DecryptionError)
  deriving DecidableEq, Repr

/-! ### Error translation (lib.rs `map_decryption_err` and the closure
in `decrypt_reencrypted`) -/

/-- Embedding of `map_decryption_err` (lib.rs lines 431-442). -/
def map_decryption_err : DecryptionError → PyErr
  | .CiphertextTooShort =>
      ⟨.ValueError, "The ciphertext must include the nonce"⟩
  | .AuthenticationFailed =>
      ⟨.GenericError,
       "Decryption of ciphertext failed: either someone tampered with the ciphertext or you are using an incorrect decryption key."⟩

/-- Embedding of the `map_err` closure of `decrypt_reencrypted`
(lib.rs lines 639-659): flattens the two-level `ReencryptionError`. -/
def map_reencryption_err : ReencryptionError → PyErr
  | .OnOpen .NoCapsuleFrags =>
      ⟨.ValueError, "Empty CapsuleFrag sequence"⟩
  | .OnOpen .MismatchedCapsuleFrags =>
      ⟨.ValueError, "CapsuleFrags are not pairwise consistent"⟩
  | .OnOpen .RepeatingCapsuleFrags =>
      ⟨.ValueError, "Some of the CapsuleFrags are repeated"⟩
  | .OnOpen .ZeroHash =>
      ⟨.GenericError, "An internally hashed value is zero"⟩
  | .OnOpen .ValidationFailed =>
      ⟨.GenericError, "Internal validation failed"⟩
  | .OnDecryption e => map_decryption_err e

/-- The seven leaf cases of the two-level backend error, in the order of
the spec table. -/
def reencryptionErrorLeaves : List ReencryptionError :=
  [.OnOpen .NoCapsuleFrags, .OnOpen .MismatchedCapsuleFrags,
   .OnOpen .RepeatingCapsuleFrags, .OnOpen .ZeroHash,
   .OnOpen .ValidationFailed, .OnDecryption .CiphertextTooShort,
   .OnDecryption .AuthenticationFailed]

/-! ### The serialization adapter

Each wrapper type holds exactly one backend value (`backend` field in
lib.rs). The backend side of the `HasSerializableBackend` /
`SerializableToArray` bound is kept abstract: an encoding width, a
`to_array` and a `from_bytes`, with the properties the spec states for
them supplied as hypotheses where a theorem needs them. -/

instance {ε α : Type} [DecidableEq ε] [DecidableEq α] : DecidableEq (Except ε α) :=
  fun x y =>
    match x, y with
    | .ok a, .ok b =>
        if h : a = b then .isTrue (by rw [h]) else .isFalse (by simp [h])
    | .error a, .error b =>
        if h : a = b then .isTrue (by rw [h]) else .isFalse (by simp [h])
    | .ok _, .error _ => .isFalse (by simp)
    | .error _, .ok _ => .isFalse (by simp)

structure Wrapper (α : Type) where
  backend : α
  deriving DecidableEq, Repr

structure Backend (α : Type) where
  width : Nat
  toArray : α → List Nat
  from_bytes : List Nat → Except DeserializationError α

/-- Embedding of the generic `to_bytes` helper (lib.rs lines 25-30): the
backend's canonical encoding, always succeeding. -/
def to_bytes {α : Type} (B : Backend α) (obj : Wrapper α) : List Nat :=
  B.toArray obj.backend

/-- Embedding of the generic `from_bytes` helper (lib.rs lines 32-48):
backend decoding with the three `DeserializationError` cases mapped to
`PyValueError` messages. -/
def from_bytes {α : Type} (B : Backend α) (name : String) (bytes : List Nat) :
    Except PyErr (Wrapper α) :=
  match B.from_bytes bytes with
  | .ok v => .ok ⟨v⟩
  | .error .ConstructionFailure =>
      .error ⟨.ValueError, "Failed to deserialize a " ++ name ++ " object"⟩
  | .error .TooManyBytes =>
      .error ⟨.ValueError, "The given bytestring is too long"⟩
  | .error .NotEnoughBytes =>
      .error ⟨.ValueError, "The given bytestring is too short"⟩

/-- Modelled from the spec: the `umbral_pre` backend `from_bytes` for a
fixed-width type (the backend crate is not under `src/`). Per spec §4.1
and §8: input longer than the type's width fails with `TooManyBytes`,
shorter with `NotEnoughBytes`, and correct-length input is decoded,
failing with `ConstructionFailure` when the content is not a valid
instance of the type. -/
def specBackendFromBytes {α : Type} (width : Nat) (decode : List Nat → Option α)
    (bytes : List Nat) : Except DeserializationError α :=
  if width < bytes.length then .error .TooManyBytes
  else if bytes.length < width then .error .NotEnoughBytes
  else
    match decode bytes with
    | some v => .ok v
    | none => .error .ConstructionFailure

/-! ### The identity protocol -/

/-- Embedding of the generic `hash` helper (lib.rs lines 50-62): Python's
builtin `hash` (kept abstract as `pyHash`) applied to the pair
`(class_name, bytes(obj))`. -/
def hash {α : Type} (pyHash : String × List Nat → Int) (B : Backend α)
    (name : String) (obj : Wrapper α) : Int :=
  pyHash (name, B.toArray obj.backend)

/-- Lowercase hex digit, as produced by `hex::encode`. -/
def hexDigit (n : Nat) : Char :=
  if n < 10 then Char.ofNat (48 + n) else Char.ofNat (87 + n)

/-- Two lowercase hex digits of one byte. -/
def hexOfByte (b : Nat) : List Char :=
  [hexDigit (b / 16 % 16), hexDigit (b % 16)]

/-- The `hex::encode` of a byte string, as a character list. -/
def hexEncode (bytes : List Nat) : List Char :=
  (bytes.map hexOfByte).flatten

/-- Rust slice `&s[a..b]` on a character list: defined only when
`a ≤ b ≤ s.length`, otherwise the slice panics (`none`). -/
def sliceChars (s : List Char) (a b : Nat) : Option (List Char) :=
  if a ≤ b ∧ b ≤ s.length then some ((s.drop a).take (b - a)) else none

/-- Embedding of the generic `hexstr` helper (lib.rs lines 68-73):
`format!("{}:{}", name, &hex_str[0..16])` over the hex encoding of the
serialization. -/
def hexstr (name : String) (serialized : List Nat) : Option String :=
  match sliceChars (hexEncode serialized) 0 16 with
  | some cs => some (name ++ ":" ++ String.mk cs)
  | none => none

/-- Python comparison operations, as in `pyo3`'s `CompareOp`. -/
inductive CompareOp where
  | Lt
  | Le
  | Eq
  | Ne
  | Gt
  | Ge
  deriving DecidableEq, Repr

/-- Embedding of the generic `richcmp` helper (lib.rs lines 75-88).
The backend `PartialEq` of every wrapper is the derived field-wise
comparison of the single `backend` field, embedded as decidable equality
on the wrapped value. -/
def richcmp {α : Type} [DecidableEq α] (name : String) (obj other : Wrapper α)
    (op : CompareOp) : Except PyErr Bool :=
  match op with
  | .Eq => .ok (decide (obj = other))
  | .Ne => .ok (decide (obj ≠ other))
  | _ => .error ⟨.TypeError, name ++ " objects are not ordered"⟩

/-! ### The value type registry

Which of the Python protocol methods each of the eight `#[pyclass]`
types defines, read off the `#[pymethods]` / `#[pyproto]` blocks of
lib.rs. -/

inductive WrapperType where
  | SecretKey
  | SecretKeyFactory
  | PublicKey
  | Signer
  | Signature
  | Capsule
  | KeyFrag
  | CapsuleFrag
  deriving DecidableEq, Repr, Fintype

/-- The `HasName` impl of each type. -/
def WrapperType.name : WrapperType → String
  | .SecretKey => "SecretKey"
  | .SecretKeyFactory => "SecretKeyFactory"
  | .PublicKey => "PublicKey"
  | .Signer => "Signer"
  | .Signature => "Signature"
  | .Capsule => "Capsule"
  | .KeyFrag => "KeyFrag"
  | .CapsuleFrag => "CapsuleFrag"

/-- Whether the type's `PyObjectProtocol` impl defines `__bytes__`
(every type except `Signer`, which has no `HasSerializableBackend` impl
at all). -/
def hasBytesMethod : WrapperType → Bool
  | .Signer => false
  | _ => true

/-- Whether the type's `#[pymethods]` block defines the `from_bytes`
staticmethod (every type except `Signer`). -/
def hasFromBytesMethod : WrapperType → Bool
  | .Signer => false
  | _ => true

/-- Whether the type's `PyObjectProtocol` impl defines `__hash__`
(only the five public types). -/
def hasHashMethod : WrapperType → Bool
  | .PublicKey => true
  | .Signature => true
  | .Capsule => true
  | .KeyFrag => true
  | .CapsuleFrag => true
  | _ => false

/-- The `__str__` of each type, as a function of the serialized bytes of
the wrapped value: the secret-bearing types format the opaque
`"TypeName:..."` placeholder, the public types call `hexstr`. -/
def strRepr (t : WrapperType) (serialized : List Nat) : Option String :=
  match t with
  | .SecretKey => some (WrapperType.name .SecretKey ++ ":...")
  | .SecretKeyFactory => some (WrapperType.name .SecretKeyFactory ++ ":...")
  | .Signer => some (WrapperType.name .Signer ++ ":...")
  | t => hexstr t.name serialized

/-! ### The PRE operation facade -/

/-- Embedding of `generate_kfrags` (lib.rs lines 518-544): the backend
result, wrapped element-wise; the adapter passes `threshold` and
`num_kfrags` through unexamined and has no failure path. -/
def generate_kfrags {σ π κ : Type}
    (backendGenerateKfrags : σ → π → σ → Nat → Nat → Bool → Bool → List κ)
    (delegating_sk : Wrapper σ) (receiving_pk : Wrapper π)
    (signing_sk : Wrapper σ) (threshold num_kfrags : Nat)
    (sign_delegating_key sign_receiving_key : Bool) : List (Wrapper κ) :=
  (backendGenerateKfrags delegating_sk.backend receiving_pk.backend
      signing_sk.backend threshold num_kfrags sign_delegating_key
      sign_receiving_key).map Wrapper.mk

/-- Embedding of `reencrypt` (lib.rs lines 612-618): a plain function of
its inputs returning a wrapped `CapsuleFrag`, with no `PyResult` in its
signature. The backend `umbral_pre::reencrypt` is a function parameter. -/
def reencrypt {γ κ φ : Type} (backendReencrypt : γ → κ → Option (List Nat) → φ)
    (capsule : Wrapper γ) (kfrag : Wrapper κ) (metadata : Option (List Nat)) :
    Wrapper φ :=
  ⟨backendReencrypt capsule.backend kfrag.backend metadata⟩

/-- Embedding of `Signature::verify` (lib.rs lines 340-343) as the Python host sees a
method call: a result that is either a value or a raised exception. The
method body returns `bool` directly, so the call always yields `ok`. -/
def signatureVerifyCall {s p : Type} (backendVerify : s → p → List Nat → Bool)
    (sig : Wrapper s) (verifying_key : Wrapper p) (message : List Nat) :
    Except PyErr Bool :=
  .ok (backendVerify sig.backend verifying_key.backend message)

/-- Embedding of `KeyFrag::verify` (lib.rs lines 480-491) as a Python method call. -/
def keyFragVerifyCall {k p : Type}
    (backendVerify : k → p → Option p → Option p → Bool)
    (kfrag : Wrapper k) (signing_pk : Wrapper p)
    (delegating_pk receiving_pk : Option (Wrapper p)) : Except PyErr Bool :=
  .ok (backendVerify kfrag.backend signing_pk.backend
    (delegating_pk.map Wrapper.backend) (receiving_pk.map Wrapper.backend))

/-- Embedding of `CapsuleFrag::verify` (lib.rs lines 570-585) as a Python method call. -/
def capsuleFragVerifyCall {f g p : Type}
    (backendVerify : f → g → p → p → p → Option (List Nat) → Bool)
    (cfrag : Wrapper f) (capsule : Wrapper g)
    (delegating_pk receiving_pk signing_pk : Wrapper p)
    (metadata : Option (List Nat)) : Except PyErr Bool :=
  .ok (backendVerify cfrag.backend capsule.backend delegating_pk.backend
    receiving_pk.backend signing_pk.backend metadata)

/-- A one-byte toy backend, used to instantiate the generic theorems at
concrete inputs. -/
def boolBackend : Backend Bool where
  width := 1
  toArray := fun b => [if b then 1 else 0]
  from_bytes := fun bytes =>
    match bytes with
    | [0] => .ok false
    | [1] => .ok true
    | [_] => .error .ConstructionFailure
    | [] => .error .NotEnoughBytes
    | _ :: _ :: _ => .error .TooManyBytes

end Umbral

namespace Umbral

/-! ### Supporting lemmas -/

theorem hexEncode_append (l₁ l₂ : List Nat) :
    hexEncode (l₁ ++ l₂) = hexEncode l₁ ++ hexEncode l₂ := by
  simp [hexEncode]

theorem hexEncode_length (bytes : List Nat) :
    (hexEncode bytes).length = 2 * bytes.length := by
  induction bytes with
  | nil => rfl
  | cons b rest ih =>
      simp [hexEncode, hexOfByte] at ih ⊢
      omega

/-- The first 16 characters of the hex encoding are exactly the hex
encoding of the first 8 bytes. -/
theorem hexEncode_take_16 (bytes : List Nat) (h : 8 ≤ bytes.length) :
    (hexEncode bytes).take 16 = hexEncode (bytes.take 8) := by
  have hsplit : bytes = bytes.take 8 ++ bytes.drop 8 := (List.take_append_drop 8 bytes).symm
  have hlen : (hexEncode (bytes.take 8)).length = 16 := by
    rw [hexEncode_length, List.length_take]
    omega
  calc (hexEncode bytes).take 16
      = (hexEncode (bytes.take 8) ++ hexEncode (bytes.drop 8)).take 16 := by
        conv_lhs => rw [hsplit, hexEncode_append]
    _ = hexEncode (bytes.take 8) := by
        rw [← hlen, List.take_left]

/-- When the input is at least 8 bytes (true of every backend width),
`hexstr` does not panic and yields the name, a colon, and the first 16
hex characters. -/
theorem hexstr_eq (name : String) (bytes : List Nat) (h : 8 ≤ bytes.length) :
    hexstr name bytes =
      some (name ++ ":" ++ String.mk ((hexEncode bytes).take 16)) := by
  have h16 : 16 ≤ (hexEncode bytes).length := by
    rw [hexEncode_length]; omega
  simp [hexstr, sliceChars, h16]

theorem construction_msg_ne_long (name : String) :
    "Failed to deserialize a " ++ name ++ " object" ≠
      "The given bytestring is too long" := by
  intro h
  rw [String.congr_append, String.congr_append] at h
  have h2 := congrArg (fun s => s.data.head?) h
  simp at h2

theorem construction_msg_ne_short (name : String) :
    "Failed to deserialize a " ++ name ++ " object" ≠
      "The given bytestring is too short" := by
  intro h
  rw [String.congr_append, String.congr_append] at h
  have h2 := congrArg (fun s => s.data.head?) h
  simp at h2

/-! ### Claim theorems -/

/-! ### Claim theorems -/

/-- C1: `decrypt_reencrypted` flattens the two-level backend error case by
case into exactly the host kinds of the spec table — `NoCapsuleFrags`,
`MismatchedCapsuleFrags`, `RepeatingCapsuleFrags` and `CiphertextTooShort`
become ValueError-kind, `ZeroHash`, `ValidationFailed` and
`AuthenticationFailed` become GenericCryptographicError-kind — and the
seven leaf cases carry pairwise distinct messages. -/
theorem decrypt_reencrypted_error_table :
    (map_reencryption_err (.OnOpen .NoCapsuleFrags)).kind = .ValueError ∧
    (map_reencryption_err (.OnOpen .MismatchedCapsuleFrags)).kind = .ValueError ∧
    (map_reencryption_err (.OnOpen .RepeatingCapsuleFrags)).kind = .ValueError ∧
    (map_reencryption_err (.OnOpen .ZeroHash)).kind = .GenericError ∧
    (map_reencryption_err (.OnOpen .ValidationFailed)).kind = .GenericError ∧
    (map_reencryption_err (.OnDecryption .CiphertextTooShort)).kind = .ValueError ∧
    (map_reencryption_err (.OnDecryption .AuthenticationFailed)).kind = .GenericError ∧
    (reencryptionErrorLeaves.map (fun e => (map_reencryption_err e).msg)).Nodup := by
  refine ⟨rfl, rfl, rfl, rfl, rfl, rfl, rfl, ?_⟩
  decide

/-- C2 counterexample: the claim asserts that each of the eight wrapper
types exposes byte serialization and deserialization, but `Signer`
defines neither `__bytes__` nor a `from_bytes` staticmethod. -/
theorem signer_serialization_counterexample :
    hasBytesMethod WrapperType.Signer = false ∧
    hasFromBytesMethod WrapperType.Signer = false := by
  decide

/-- C2 (amended): every wrapper type except `Signer` exposes byte
serialization and deserialization, and — for a backend whose decoding
inverts its encoding, as the spec states for the `umbral_pre` backend —
deserializing the serialization of a valid instance returns an equal
value. -/
theorem from_bytes_to_bytes_roundtrip {α : Type} (B : Backend α)
    (hrt : ∀ v : α, B.from_bytes (B.toArray v) = .ok v) :
    (∀ t : WrapperType, t ≠ .Signer →
      hasBytesMethod t = true ∧ hasFromBytesMethod t = true) ∧
    (∀ (name : String) (w : Wrapper α),
      from_bytes B name (to_bytes B w) = .ok w) := by
  refine ⟨by decide, fun name w => ?_⟩
  cases w with
  | mk v => simp [from_bytes, to_bytes, hrt v]

theorem from_bytes_to_bytes_roundtrip_witness :
    (∀ v : Bool, boolBackend.from_bytes (boolBackend.toArray v) = .ok v) ∧
    from_bytes boolBackend "SecretKey" (to_bytes boolBackend ⟨true⟩) =
      .ok ⟨true⟩ :=
  ⟨by decide,
   (from_bytes_to_bytes_roundtrip boolBackend (by decide)).2 "SecretKey" ⟨true⟩⟩

/-- C3: over the spec-modelled fixed-width backend decoder, `from_bytes`
either returns the wrapped value or fails with exactly one of three
ValueError-kind errors — TooManyBytes when the input is longer than the
type's width, TooShortBytes when it is shorter, and ConstructionFailure
when the length is right but the content is not a valid instance — and
the three messages are pairwise distinct. -/
theorem from_bytes_error_taxonomy {α : Type} (width : Nat)
    (decode : List Nat → Option α) (toArr : α → List Nat) (name : String)
    (bytes : List Nat) :
    (width < bytes.length →
      from_bytes ⟨width, toArr, specBackendFromBytes width decode⟩ name bytes =
        .error ⟨.ValueError, "The given bytestring is too long"⟩) ∧
    (bytes.length < width →
      from_bytes ⟨width, toArr, specBackendFromBytes width decode⟩ name bytes =
        .error ⟨.ValueError, "The given bytestring is too short"⟩) ∧
    (∀ v : α, bytes.length = width → decode bytes = some v →
      from_bytes ⟨width, toArr, specBackendFromBytes width decode⟩ name bytes =
        .ok ⟨v⟩) ∧
    (bytes.length = width → decode bytes = none →
      from_bytes ⟨width, toArr, specBackendFromBytes width decode⟩ name bytes =
        .error ⟨.ValueError, "Failed to deserialize a " ++ name ++ " object"⟩) ∧
    ("Failed to deserialize a " ++ name ++ " object" ≠
        "The given bytestring is too long" ∧
      "Failed to deserialize a " ++ name ++ " object" ≠
        "The given bytestring is too short" ∧
      ("The given bytestring is too long" : String) ≠
        "The given bytestring is too short") := by
  refine ⟨?_, ?_, ?_, ?_,
    construction_msg_ne_long name, construction_msg_ne_short name, by decide⟩
  · intro h
    simp [from_bytes, specBackendFromBytes, h]
  · intro h
    simp [from_bytes, specBackendFromBytes, h, Nat.not_lt.mpr (Nat.le_of_lt h)]
  · intro v hlen hdec
    simp [from_bytes, specBackendFromBytes, hlen, hdec]
  · intro hlen hdec
    simp [from_bytes, specBackendFromBytes, hlen, hdec]

theorem from_bytes_error_taxonomy_witness :
    (2 : Nat) < ([5, 6, 7] : List Nat).length ∧
    from_bytes ⟨2, (fun (_ : Unit) => [0, 0]), specBackendFromBytes 2 (fun _ => none)⟩
        "Capsule" [5, 6, 7] =
      .error ⟨.ValueError, "The given bytestring is too long"⟩ :=
  ⟨by decide,
   (from_bytes_error_taxonomy 2 (fun _ => (none : Option Unit))
      (fun _ => [0, 0]) "Capsule" [5, 6, 7]).1 (by decide)⟩

/-- C4: `__hash__` is exposed by exactly the five public types; the
generic `hash` helper is the host hash of the pair (type name,
serialized bytes); hence two values of the same type that compare equal
through the exposed equality hash equally. The secret-bearing types do
not expose `__hash__`. -/
theorem hash_exposure_and_consistency {α : Type} [DecidableEq α]
    (pyHash : String × List Nat → Int) (B : Backend α) (name : String)
    (w₁ w₂ : Wrapper α) (h : richcmp name w₁ w₂ .Eq = .ok true) :
    (∀ t : WrapperType, hasHashMethod t = true ↔
      t ∈ [WrapperType.PublicKey, .Signature, .Capsule, .KeyFrag, .CapsuleFrag]) ∧
    hash pyHash B name w₁ = pyHash (name, B.toArray w₁.backend) ∧
    hash pyHash B name w₁ = hash pyHash B name w₂ := by
  refine ⟨by decide, rfl, ?_⟩
  have heq : w₁ = w₂ := by
    simpa [richcmp] using h
  rw [heq]

theorem hash_exposure_and_consistency_witness :
    richcmp "PublicKey" (⟨true⟩ : Wrapper Bool) ⟨true⟩ .Eq = .ok true ∧
    hash (fun p => (p.2.length : Int)) boolBackend "PublicKey" ⟨true⟩ =
      hash (fun p => (p.2.length : Int)) boolBackend "PublicKey" ⟨true⟩ :=
  ⟨by decide,
   (hash_exposure_and_consistency (fun p => (p.2.length : Int)) boolBackend
      "PublicKey" ⟨true⟩ ⟨true⟩ (by decide)).2.2⟩

/-- C5: the string representation of each secret-bearing type is the
opaque placeholder `"TypeName:..."` whatever the serialized bytes are,
and the string representation of each public type is `"TypeName:"`
followed by the first 16 hex characters of its serialized bytes. -/
theorem str_repr_spec :
    (∀ bytes : List Nat,
      strRepr .SecretKey bytes = some "SecretKey:..." ∧
      strRepr .SecretKeyFactory bytes = some "SecretKeyFactory:..." ∧
      strRepr .Signer bytes = some "Signer:...") ∧
    (∀ t : WrapperType,
      t ∈ [WrapperType.PublicKey, .Signature, .Capsule, .KeyFrag, .CapsuleFrag] →
      ∀ bytes : List Nat, 8 ≤ bytes.length →
        strRepr t bytes =
          some (t.name ++ ":" ++ String.mk ((hexEncode bytes).take 16))) := by
  refine ⟨fun bytes => ⟨rfl, rfl, rfl⟩, fun t ht bytes hlen => ?_⟩
  fin_cases ht <;>
    simpa [strRepr] using hexstr_eq _ bytes hlen

theorem str_repr_spec_witness :
    WrapperType.PublicKey ∈
      [WrapperType.PublicKey, .Signature, .Capsule, .KeyFrag, .CapsuleFrag] ∧
    8 ≤ ([0, 1, 2, 3, 4, 5, 6, 7] : List Nat).length ∧
    strRepr .PublicKey [0, 1, 2, 3, 4, 5, 6, 7] =
      some (WrapperType.name .PublicKey ++ ":" ++
        String.mk ((hexEncode [0, 1, 2, 3, 4, 5, 6, 7]).take 16)) :=
  ⟨by decide, by decide,
   str_repr_spec.2 .PublicKey (by decide) [0, 1, 2, 3, 4, 5, 6, 7] (by decide)⟩

/-- C6: for every wrapper type, equality and inequality return the
backend's structural comparison of the wrapped values, and each of the
four ordering comparisons fails with a type-mismatch error whose message
is the type name followed by " objects are not ordered". -/
theorem richcmp_spec {α : Type} [DecidableEq α] (name : String)
    (a b : Wrapper α) :
    (richcmp name a b .Eq = .ok true ↔ a.backend = b.backend) ∧
    (richcmp name a b .Ne = .ok true ↔ a.backend ≠ b.backend) ∧
    (∀ op : CompareOp, op ≠ .Eq → op ≠ .Ne →
      richcmp name a b op =
        .error ⟨.TypeError, name ++ " objects are not ordered"⟩) := by
  obtain ⟨va⟩ := a
  obtain ⟨vb⟩ := b
  refine ⟨by simp [richcmp], by simp [richcmp], fun op h1 h2 => ?_⟩
  cases op <;> first | rfl | exact absurd rfl h1 | exact absurd rfl h2

theorem richcmp_spec_witness :
    richcmp "SecretKey" (⟨true⟩ : Wrapper Bool) ⟨false⟩ .Lt =
      .error ⟨.TypeError, "SecretKey objects are not ordered"⟩ :=
  (richcmp_spec "SecretKey" ⟨true⟩ ⟨false⟩).2.2 .Lt (by decide) (by decide)

/-- C7: each of the three verification entry points returns the backend
boolean as an ordinary value — the call never raises: its result is
always `ok` of the backend's verdict, for every input. -/
theorem verify_returns_bool {s p k f g : Type}
    (bvSig : s → p → List Nat → Bool)
    (bvKfrag : k → p → Option p → Option p → Bool)
    (bvCfrag : f → g → p → p → p → Option (List Nat) → Bool)
    (sig : Wrapper s) (vk : Wrapper p) (message : List Nat)
    (kfrag : Wrapper k) (signing_pk : Wrapper p)
    (delegating_pk receiving_pk : Option (Wrapper p))
    (cfrag : Wrapper f) (capsule : Wrapper g)
    (dpk rpk spk : Wrapper p) (metadata : Option (List Nat)) :
    signatureVerifyCall bvSig sig vk message =
      .ok (bvSig sig.backend vk.backend message) ∧
    keyFragVerifyCall bvKfrag kfrag signing_pk delegating_pk receiving_pk =
      .ok (bvKfrag kfrag.backend signing_pk.backend
        (delegating_pk.map Wrapper.backend) (receiving_pk.map Wrapper.backend)) ∧
    capsuleFragVerifyCall bvCfrag cfrag capsule dpk rpk spk metadata =
      .ok (bvCfrag cfrag.backend capsule.backend dpk.backend rpk.backend
        spk.backend metadata) :=
  ⟨rfl, rfl, rfl⟩

/-- C8: for every choice of keys, flags, `threshold` and `num_kfrags` —
with no constraint relating `threshold` to `num_kfrags` — the adapter
returns the backend's sequence wrapped element-wise, of length exactly
`num_kfrags` when the backend honours its contract (spec §4.4, backend
not under src/), and the adapter itself has no failure path and performs
no validation. -/
theorem generate_kfrags_spec {σ π κ : Type}
    (backendGenerateKfrags : σ → π → σ → Nat → Nat → Bool → Bool → List κ)
    (hlen : ∀ dsk rpk ssk threshold num_kfrags sd sr,
      (backendGenerateKfrags dsk rpk ssk threshold num_kfrags sd sr).length =
        num_kfrags)
    (delegating_sk : Wrapper σ) (receiving_pk : Wrapper π)
    (signing_sk : Wrapper σ) (threshold num_kfrags : Nat) (sd sr : Bool) :
    generate_kfrags backendGenerateKfrags delegating_sk receiving_pk signing_sk
        threshold num_kfrags sd sr =
      (backendGenerateKfrags delegating_sk.backend receiving_pk.backend
        signing_sk.backend threshold num_kfrags sd sr).map Wrapper.mk ∧
    (generate_kfrags backendGenerateKfrags delegating_sk receiving_pk signing_sk
        threshold num_kfrags sd sr).length = num_kfrags := by
  refine ⟨rfl, ?_⟩
  simp [generate_kfrags, hlen]

theorem generate_kfrags_spec_witness :
    (generate_kfrags
        (fun (_ : Bool) (_ : Bool) (_ : Bool) (_ n : Nat) (_ _ : Bool) =>
          List.range n)
        ⟨true⟩ ⟨false⟩ ⟨true⟩ 5 3 true false).length = 3 :=
  (generate_kfrags_spec
    (fun (_ : Bool) (_ : Bool) (_ : Bool) (_ n : Nat) (_ _ : Bool) =>
      List.range n)
    (fun _ _ _ _ _ _ _ => List.length_range _)
    ⟨true⟩ ⟨false⟩ ⟨true⟩ 5 3 true false).2

/-- C9: `reencrypt` at this layer is a plain function — it returns a
wrapped `CapsuleFrag` with no failure path, and equal inputs give equal
outputs. -/
theorem reencrypt_total_deterministic {γ κ φ : Type}
    (backendReencrypt : γ → κ → Option (List Nat) → φ)
    (c c' : Wrapper γ) (k k' : Wrapper κ) (m m' : Option (List Nat))
    (hc : c = c') (hk : k = k') (hm : m = m') :
    reencrypt backendReencrypt c k m = reencrypt backendReencrypt c' k' m' ∧
    reencrypt backendReencrypt c k m =
      ⟨backendReencrypt c.backend k.backend m⟩ := by
  subst hc hk hm
  exact ⟨rfl, rfl⟩

theorem reencrypt_total_deterministic_witness :
    reencrypt (fun (_ : Bool) (_ : Bool) (_ : Option (List Nat)) => (0 : Nat))
        ⟨true⟩ ⟨false⟩ none =
      reencrypt (fun (_ : Bool) (_ : Bool) (_ : Option (List Nat)) => (0 : Nat))
        ⟨true⟩ ⟨false⟩ none :=
  (reencrypt_total_deterministic
    (fun (_ : Bool) (_ : Bool) (_ : Option (List Nat)) => (0 : Nat))
    ⟨true⟩ ⟨true⟩ ⟨false⟩ ⟨false⟩ none none rfl rfl rfl).1

/-- C10: `SecretKey` and `SecretKeyFactory` both expose `__bytes__`, and
the generic `to_bytes` it delegates to always succeeds, returning the
full fixed-width backend serialization of the secret material. -/
theorem secret_bytes_exported {α : Type} (B : Backend α)
    (hw : ∀ v : α, (B.toArray v).length = B.width) (w : Wrapper α) :
    hasBytesMethod WrapperType.SecretKey = true ∧
    hasBytesMethod WrapperType.SecretKeyFactory = true ∧
    to_bytes B w = B.toArray w.backend ∧
    (to_bytes B w).length = B.width :=
  ⟨rfl, rfl, rfl, hw w.backend⟩

theorem secret_bytes_exported_witness :
    (∀ v : Bool, (boolBackend.toArray v).length = boolBackend.width) ∧
    (to_bytes boolBackend ⟨true⟩).length = boolBackend.width :=
  ⟨by decide, (secret_bytes_exported boolBackend (by decide) ⟨true⟩).2.2.2⟩

end Umbral
